import Mathlib

/-!
Verification of the SoC composition and build-orchestration logic of the
riscvOnColorlight-5A-75B repository (src/base.py) against its design
specification.

The Python source is shallowly embedded below.  Constants and structures
mirror the literal values in src/base.py; components that the source
delegates to external library code (the address-space allocator inside the
SoC integration library, the clock-domain manager, the builder state
machine) are modelled from the specification, and each such definition is
marked with a doc comment beginning with the words Modelled from the spec.
-/

/-- kB = 1024, from src/base.py line 27. -/
def kB : Nat := 1024

/-- mB = 1024*kB, from src/base.py line 28. -/
def mB : Nat := 1024 * kB

/-- The memory map assigned to SoCCore.mem_map in BaseSoC.__init__
(src/base.py lines 56-62): logical region name to base address. -/
def base_mem_map : List (String × Nat) :=
  [("rom",      0x00000000),
   ("sram",     0x10000000),
   ("spiflash", 0x20000000),
   ("main_ram", 0x40000000),
   ("csr",      0x82000000)]

/-- Lookup of a region base in the memory map (Python dict indexing
self.mem_map[name]); total with default 0, only applied to present keys. -/
def memMapGet (n : String) : Nat :=
  ((base_mem_map.find? (fun p => p.1 == n)).map Prod.snd).getD 0

/-- sys_clk_freq = int(66e6), src/base.py line 65. -/
def sys_clk_freq : Nat := 66000000

/-- clk_freq passed to SoCCore.__init__: sys_clk_freq*3, src/base.py line 71. -/
def clk_freq : Nat := sys_clk_freq * 3

/-- max_sdram_size = 0x400000 passed to SoCCore.__init__, src/base.py line 73. -/
def max_sdram_size : Nat := 0x400000

/-- integrated_rom_size = 0x8000 passed to SoCCore.__init__, src/base.py line 75. -/
def integrated_rom_size : Nat := 0x8000

/-- The SDRAM window size requested in add_sdram: size = 4*mB, src/base.py line 84. -/
def sdram_size_requested : Nat := 4 * mB

/-- Modelled from the spec: AddressSpaceAllocator.clamp (spec section 4.1) —
the clamping of a requested mapped size to a maximum is performed inside the
external SoC integration library (src/base.py only supplies the
max_sdram_size argument); per the spec it returns min(requested_size,
max_size). -/
def clamp (_name : String) (requested_size max_size : Nat) : Nat :=
  min requested_size max_size

/-- One PLL output clock, as produced by pll.create_clkout in _CRG.__init__:
the target clock domain, the requested frequency in Hz, and the requested
phase in degrees (create_clkout default phase is 0). -/
structure ClkOut where
  domain : String
  freq : Nat
  phase : Nat
  deriving DecidableEq, Repr

/-- The clock/reset generator _CRG (src/base.py lines 32-52), embedded as
data: the PLL reference input registered by pll.register_clkin (clk25 at
25e6 Hz), the list of pll.create_clkout calls in order (lines 47-48), the
domains handed an AsyncResetSynchronizer (line 49: cd_sys only), and the
clock domain whose ClockSignal drives the sdram_clock DDROutput (line 52). -/
structure CRG where
  clkin_freq : Nat
  clkouts : List ClkOut
  reset_synchronized_domains : List String
  sdram_clock_domain : String
  deriving DecidableEq, Repr

/-- _CRG.__init__ for a given sys_clk_freq argument (src/base.py lines
32-52): clk25 reference at 25 MHz; cd_sys at sys_clk_freq phase 0; cd_sys_ps
at sys_clk_freq phase 180; AsyncResetSynchronizer on cd_sys; DDROutput of the
sdram_clock pad clocked by sys_ps. -/
def crg (s : Nat) : CRG :=
  { clkin_freq := 25000000
    clkouts := [⟨"sys", s, 0⟩, ⟨"sys_ps", s, 180⟩]
    reset_synchronized_domains := ["sys"]
    sdram_clock_domain := "sys_ps" }

/-- BaseSoC.configure_boot (src/base.py lines 112-114): when a spiflash
peripheral is present, publish the constant FLASH_BOOT_ADDRESS with value
self.mem_map["spiflash"] + 1*mB; otherwise publish nothing. -/
def configure_boot (has_spiflash : Bool) : Option (String × Nat) :=
  if has_spiflash then some ("FLASH_BOOT_ADDRESS", memMapGet "spiflash" + 1 * mB)
  else none

/-- A registered memory region: logical name, base address and mapped size
in bytes, with address interval [base, base+size). -/
structure Region where
  name : String
  base : Nat
  size : Nat
  deriving DecidableEq, Repr

/-- Two regions overlap when their half-open address intervals
[base, base+size) intersect. -/
def overlaps (a b : Region) : Bool :=
  decide (a.base < b.base + b.size) && decide (b.base < a.base + a.size)

/-- Modelled from the spec: the error taxonomy of the AddressSpaceAllocator
(spec section 7) — the allocator itself lives in the external SoC
integration library, src/base.py only supplies region bases and sizes. -/
inductive AllocError
  | RegionOverlapError
  | RegionRedefinedError
  | RegionNotFoundError
  deriving DecidableEq, Repr

/-- Modelled from the spec: AddressSpaceAllocator.allocate (spec section
4.1), absent from src/ — registers a region; fails with RegionOverlapError
if the new interval intersects any existing registered interval, with
RegionRedefinedError if the name is already registered; append-only. -/
def allocate (regs : List Region) (n : String) (b s : Nat) :
    Except AllocError (List Region) :=
  if regs.any (fun r => overlaps r ⟨n, b, s⟩) then .error .RegionOverlapError
  else if regs.any (fun r => r.name == n) then .error .RegionRedefinedError
  else .ok (regs ++ [⟨n, b, s⟩])

/-- The allocation sequence of the composed memory map of BaseSoC
(src/base.py lines 56-62, 73-88): the five regions of base_mem_map in order,
rom with integrated_rom_size, main_ram with the requested SDRAM window
clamped by max_sdram_size.  The sram, spiflash and csr mapped sizes are not
fixed by src/base.py and stay parameters. -/
def composeRegions (sram_sz spiflash_sz csr_sz : Nat) :
    Except AllocError (List Region) :=
  (allocate [] "rom" 0x00000000 integrated_rom_size).bind fun r1 =>
  (allocate r1 "sram" 0x10000000 sram_sz).bind fun r2 =>
  (allocate r2 "spiflash" 0x20000000 spiflash_sz).bind fun r3 =>
  (allocate r3 "main_ram" 0x40000000
      (clamp "main_ram" sdram_size_requested max_sdram_size)).bind fun r4 =>
  allocate r4 "csr" 0x82000000 csr_sz

/-- The explicit region list produced by composeRegions when every step
succeeds. -/
def composedRegs (sram_sz spiflash_sz csr_sz : Nat) : List Region :=
  [⟨"rom",      0x00000000, 0x8000⟩,
   ⟨"sram",     0x10000000, sram_sz⟩,
   ⟨"spiflash", 0x20000000, spiflash_sz⟩,
   ⟨"main_ram", 0x40000000, 0x400000⟩,
   ⟨"csr",      0x82000000, csr_sz⟩]

/-- Build/load orchestration states (spec section 4.5). -/
inductive OrchState
  | Unbuilt
  | Built
  | BuildFailed
  | Loaded
  | LoadFailed
  deriving DecidableEq, Repr

/-- The command-line flags consumed by main (src/base.py lines 123-126):
the build and load store_true flags and the JTAG cable identifier. -/
structure RunArgs where
  build : Bool
  load : Bool
  cable : String
  deriving DecidableEq, Repr

/-- Outcomes of the two external collaborators: whether the synthesis
toolchain invocation succeeds, its diagnostic text when it fails, and the
exit status openFPGALoader returns to os.system. -/
structure Collaborators where
  synthOk : Bool
  synthDiag : String
  loaderExit : Nat
  deriving DecidableEq, Repr

/-- The observable outcome of one run of main: whether synthesis was
invoked, the resulting orchestration state, the captured synthesis
diagnostic, whether the device programmer was invoked, and the final
process exit status. -/
structure RunResult where
  synthInvoked : Bool
  buildState : OrchState
  capturedDiag : String
  loadInvoked : Bool
  exitCode : Nat
  deriving DecidableEq, Repr

/-- main (src/base.py lines 118-141): builder.build(run=args.build) invokes
the synthesis toolchain only when the build flag is set; a toolchain failure
raises, aborting the process with a non-zero status before any load is
attempted; otherwise, when the load flag is set, openFPGALoader is invoked
through os.system on the on-disk bitstream path regardless of whether a
build happened in this run, and the os.system return value is discarded, so
the process exits 0 whatever the loader's exit status was. -/
def mainRun (args : RunArgs) (ext : Collaborators) : RunResult :=
  if args.build then
    if ext.synthOk then
      { synthInvoked := true, buildState := .Built, capturedDiag := "",
        loadInvoked := args.load, exitCode := 0 }
    else
      { synthInvoked := true, buildState := .BuildFailed,
        capturedDiag := ext.synthDiag, loadInvoked := false, exitCode := 1 }
  else
    { synthInvoked := false, buildState := .Unbuilt, capturedDiag := "",
      loadInvoked := args.load, exitCode := 0 }

/-- The process-wide mutable configuration touched by BaseSoC.__init__:
SoCCore.mem_map is a class attribute of the external SoCCore, shared by
every SoCCore instance in the process; src/base.py line 56 assigns it. -/
structure SoCGlobals where
  socCoreMemMap : List (String × Nat)
  deriving DecidableEq, Repr

/-- The frozen SoC descriptor produced by composition: region map, derived
clock domains, registered peripherals, identification string and declared
base clock frequency. -/
structure Descriptor where
  boardRevision : String
  regions : List (String × Nat)
  clockDomains : List ClkOut
  peripherals : List String
  ident : String
  declaredClkFreq : Nat
  deriving DecidableEq, Repr

/-- BaseSoC.__init__ (src/base.py lines 54-96) as a state transformer over
the process-wide SoCCore.mem_map class attribute: line 56 first assigns
SoCCore.mem_map = base_mem_map, overwriting whatever the shared attribute
held, and the descriptor is then composed from that freshly written map,
the CRG clock outputs, and the fixed peripheral sequence of lines 68-96. -/
def compose (_g : SoCGlobals) (revision : String) : SoCGlobals × Descriptor :=
  let g2 : SoCGlobals := { socCoreMemMap := base_mem_map }
  (g2,
   { boardRevision := revision
     regions := g2.socCoreMemMap
     clockDomains := (crg sys_clk_freq).clkouts
     peripherals := ["vexriscv", "crg", "sdrphy", "sdram", "ethphy",
                     "ethernet", "spiflash"]
     ident := "LiteX RISC-V SoC on 5A-75B"
     declaredClkFreq := clk_freq })

/-- A derived clock domain record of the ClockDomainManager: name, source
domain or oscillator, frequency in Hz, and phase in degrees. -/
structure CDomain where
  name : String
  source : String
  freq : Nat
  phase : Nat
  deriving DecidableEq, Repr

/-- Modelled from the spec: the clock/reset error taxonomy (spec section 7)
— ClockSourceCycleError and UnsynchronizedDomainError are raised by the
ClockDomainManager, which is not in src/ (src/base.py drives the external
PLL and AsyncResetSynchronizer primitives). -/
inductive ClockError
  | ClockSourceCycleError
  | UnsynchronizedDomainError
  deriving DecidableEq, Repr

/-- Modelled from the spec: ClockDomainManager state (spec section 4.2) —
registered external oscillators, derived domains, and the domains whose
reset has been synchronized together with their guard condition. -/
structure ClockManager where
  sources : List (String × Nat)
  domains : List CDomain
  synchronized : List (String × String)
  deriving DecidableEq, Repr

/-- Modelled from the spec: ClockDomainManager.register_source (spec
section 4.2), absent from src/ — registers an external oscillator. -/
def register_source (m : ClockManager) (n : String) (f : Nat) : ClockManager :=
  { m with sources := m.sources ++ [(n, f)] }

/-- Modelled from the spec: ClockDomainManager.derive (spec section 4.2),
absent from src/ — creates a domain from an already-registered source,
storing the caller-supplied phase value verbatim (the manager never
substitutes a computed ideal phase); fails with ClockSourceCycleError when
from_domain is not registered. -/
def derive (m : ClockManager) (n from_domain : String) (f phase : Nat) :
    Except ClockError ClockManager :=
  if m.sources.any (fun p => p.1 == from_domain)
      || m.domains.any (fun d => d.name == from_domain) then
    .ok { m with domains := m.domains ++ [⟨n, from_domain, f, phase⟩] }
  else .error .ClockSourceCycleError

/-- Modelled from the spec: ClockDomainManager.synchronize_reset (spec
section 4.2), absent from src/ — marks a domain's reset as held until the
guard condition is satisfied. -/
def synchronize_reset (m : ClockManager) (d guard : String) : ClockManager :=
  { m with synchronized := m.synchronized ++ [(d, guard)] }

/-- Modelled from the spec: ClockDomainManager.bind_check (spec section
4.2), absent from src/ — a peripheral may bind to a domain only after
synchronize_reset; fails with UnsynchronizedDomainError otherwise. -/
def bind_check (m : ClockManager) (d : String) : Except ClockError Unit :=
  if m.synchronized.any (fun p => p.1 == d) then .ok ()
  else .error .UnsynchronizedDomainError

/-- The clock-manager state of the composed design before any
synchronize_reset call: the clk25 oscillator (25 MHz) with the sys and
sys_ps domains derived from it at sys_clk_freq with phases 0 and 180
(src/base.py lines 44-48). -/
def cmgr_scenario : ClockManager :=
  { sources := [("clk25", 25000000)]
    domains := [⟨"sys", "clk25", 66000000, 0⟩, ⟨"sys_ps", "clk25", 66000000, 180⟩]
    synchronized := [] }

/-- C2: the mapped size exposed in the address map equals min(requested, max):
clamp is ≤ max, equals requested when requested ≤ max, 16 MiB clamped by a
4 MiB limit gives 4 MiB, and the source's requested SDRAM window (4*mB)
clamped by max_sdram_size = 0x400000 yields a main_ram region of exactly
4 MiB. -/
theorem clamp_min_spec (n : String) (req mx : Nat) :
    clamp n req mx = min req mx ∧
    clamp n req mx ≤ mx ∧
    (req ≤ mx → clamp n req mx = req) ∧
    clamp "main_ram" (16 * mB) (4 * mB) = 4 * mB ∧
    clamp "main_ram" sdram_size_requested max_sdram_size = 4 * mB := by
  refine ⟨rfl, Nat.min_le_right _ _, fun h => Nat.min_eq_left h, by decide, by decide⟩

/-- Witness for clamp_min_spec at a concrete input, discharging the inner
implication at req = 0x300000 ≤ mx = 0x400000. -/
theorem clamp_min_spec_witness :
    clamp "x" 0x300000 0x400000 = min 0x300000 0x400000 ∧
    clamp "x" 0x300000 0x400000 ≤ 0x400000 ∧
    (0x300000 ≤ 0x400000 → clamp "x" 0x300000 0x400000 = 0x300000) ∧
    clamp "main_ram" (16 * mB) (4 * mB) = 4 * mB ∧
    clamp "main_ram" sdram_size_requested max_sdram_size = 4 * mB :=
  clamp_min_spec "x" 0x300000 0x400000

/-- C3: whenever the spiflash boot-flash peripheral is present, the published
constant FLASH_BOOT_ADDRESS equals the spiflash region base plus exactly
1 MiB: 0x20000000 + 0x100000 = 0x20100000. -/
theorem flash_boot_address_value :
    configure_boot true = some ("FLASH_BOOT_ADDRESS", 0x20100000) ∧
    memMapGet "spiflash" + 1 * mB = memMapGet "spiflash" + 0x100000 ∧
    memMapGet "spiflash" = 0x20000000 ∧
    configure_boot false = none := by
  refine ⟨by decide, by decide, by decide, rfl⟩

/-- C10: the clock frequency declared in the composed descriptor
(clk_freq = sys_clk_freq*3 = 198 MHz) is exactly three times the frequency at
which _CRG actually generates the sys clock domain from the 25 MHz reference
(66 MHz), and the two are not equal. -/
theorem declared_freq_thrice_generated :
    ((crg sys_clk_freq).clkouts.find? (fun o => o.domain == "sys")).map ClkOut.freq
      = some 66000000 ∧
    (crg sys_clk_freq).clkin_freq = 25000000 ∧
    clk_freq = 3 * 66000000 ∧
    clk_freq = 198000000 ∧
    clk_freq ≠ 66000000 := by
  refine ⟨by decide, rfl, by decide, by decide, by decide⟩

/-- Characterization of region overlap as interval intersection. -/
theorem overlaps_iff (a b : Region) :
    overlaps a b = true ↔ (a.base < b.base + b.size ∧ b.base < a.base + a.size) := by
  simp [overlaps]

/-- A region does not overlap another exactly when one interval ends before
the other begins. -/
theorem overlaps_eq_false_iff (a b : Region) :
    overlaps a b = false ↔ (b.base + b.size ≤ a.base ∨ a.base + a.size ≤ b.base) := by
  rcases Nat.lt_or_ge a.base (b.base + b.size) with h | h <;>
    rcases Nat.lt_or_ge b.base (a.base + a.size) with h2 | h2 <;>
      simp [overlaps, h, h2] <;> omega

/-- allocate succeeds and appends when the new region overlaps nothing and
its name is fresh. -/
theorem allocate_ok_of (regs : List Region) (n : String) (b s : Nat)
    (hov : regs.any (fun r => overlaps r ⟨n, b, s⟩) = false)
    (hname : regs.any (fun r => r.name == n) = false) :
    allocate regs n b s = .ok (regs ++ [⟨n, b, s⟩]) := by
  simp [allocate, hov, hname]

/-- allocate fails with RegionOverlapError whenever the new interval
intersects a registered one. -/
theorem allocate_overlap_error (regs : List Region) (n : String) (b s : Nat)
    (hov : regs.any (fun r => overlaps r ⟨n, b, s⟩) = true) :
    allocate regs n b s = .error .RegionOverlapError := by
  simp [allocate, hov]

/-- bind on a successful Except is application. -/
theorem except_bind_ok {e a b : Type} (x : a) (f : a → Except e b) :
    (Except.ok x : Except e a).bind f = f x := rfl

/-- Reformulation of non-overlap for explicit region literals. -/
theorem overlaps_mk_eq_false_iff (n1 n2 : String) (b1 z1 b2 z2 : Nat) :
    overlaps ⟨n1, b1, z1⟩ ⟨n2, b2, z2⟩ = false ↔ (b2 + z2 ≤ b1 ∨ b1 + z1 ≤ b2) :=
  overlaps_eq_false_iff _ _

/-- C1: the five regions of the composed memory map (rom at 0x00000000 size
0x8000, sram at 0x10000000, spiflash at 0x20000000, main_ram at 0x40000000
size 0x400000, csr at 0x82000000) allocate without error and have pairwise
non-intersecting [base, base+size) intervals, for any sram/spiflash/csr
mapped sizes that fit below the next region base; registering any additional
region whose interval intersects a registered one fails with
RegionOverlapError, and in particular extra at 0x40000000 length 0x100 does. -/
theorem composed_map_disjoint (s1 s2 s3 : Nat)
    (h1 : s1 ≤ 0x10000000) (h2 : s2 ≤ 0x20000000) :
    composeRegions s1 s2 s3 = .ok (composedRegs s1 s2 s3) ∧
    List.Pairwise (fun a b => overlaps a b = false) (composedRegs s1 s2 s3) ∧
    (∀ n b s, (∃ r ∈ composedRegs s1 s2 s3, overlaps r ⟨n, b, s⟩ = true) →
      allocate (composedRegs s1 s2 s3) n b s = .error .RegionOverlapError) ∧
    allocate (composedRegs s1 s2 s3) "extra" 0x40000000 0x100
      = .error .RegionOverlapError := by
  have hclamp : clamp "main_ram" sdram_size_requested max_sdram_size = 0x400000 := by
    decide
  refine ⟨?_, ?_, ?_, ?_⟩
  · have e1 : allocate [] "rom" 0x00000000 integrated_rom_size
        = .ok [⟨"rom", 0x00000000, 0x8000⟩] := by rfl
    have e2 : allocate [⟨"rom", 0x00000000, 0x8000⟩] "sram" 0x10000000 s1
        = .ok [⟨"rom", 0x00000000, 0x8000⟩, ⟨"sram", 0x10000000, s1⟩] := by
      apply allocate_ok_of
      · simp [overlaps_mk_eq_false_iff]
      · decide
    have e3 : allocate [⟨"rom", 0x00000000, 0x8000⟩, ⟨"sram", 0x10000000, s1⟩]
        "spiflash" 0x20000000 s2
        = .ok [⟨"rom", 0x00000000, 0x8000⟩, ⟨"sram", 0x10000000, s1⟩,
               ⟨"spiflash", 0x20000000, s2⟩] := by
      apply allocate_ok_of
      · simp [overlaps_mk_eq_false_iff]
        omega
      · simp
    have e4 : allocate [⟨"rom", 0x00000000, 0x8000⟩, ⟨"sram", 0x10000000, s1⟩,
               ⟨"spiflash", 0x20000000, s2⟩] "main_ram" 0x40000000 0x400000
        = .ok [⟨"rom", 0x00000000, 0x8000⟩, ⟨"sram", 0x10000000, s1⟩,
               ⟨"spiflash", 0x20000000, s2⟩, ⟨"main_ram", 0x40000000, 0x400000⟩] := by
      apply allocate_ok_of
      · simp [overlaps_mk_eq_false_iff]
        omega
      · simp
    have e5 : allocate [⟨"rom", 0x00000000, 0x8000⟩, ⟨"sram", 0x10000000, s1⟩,
               ⟨"spiflash", 0x20000000, s2⟩, ⟨"main_ram", 0x40000000, 0x400000⟩]
        "csr" 0x82000000 s3
        = .ok (composedRegs s1 s2 s3) := by
      apply allocate_ok_of
      · simp [overlaps_mk_eq_false_iff]
        omega
      · simp
    unfold composeRegions
    rw [hclamp, e1, except_bind_ok, e2, except_bind_ok, e3, except_bind_ok, e4,
      except_bind_ok, e5]
  · simp only [composedRegs, List.pairwise_cons, List.mem_cons, List.not_mem_nil]
    refine ⟨fun r hr => ?_, fun r hr => ?_, fun r hr => ?_, fun r hr => ?_, ?_, ?_⟩
    · rcases hr with rfl | rfl | rfl | rfl | h <;>
        first
          | (rw [overlaps_mk_eq_false_iff]; omega)
          | exact h.elim
    · rcases hr with rfl | rfl | rfl | h <;>
        first
          | (rw [overlaps_mk_eq_false_iff]; omega)
          | exact h.elim
    · rcases hr with rfl | rfl | h <;>
        first
          | (rw [overlaps_mk_eq_false_iff]; omega)
          | exact h.elim
    · rcases hr with rfl | h <;>
        first
          | (rw [overlaps_mk_eq_false_iff]; omega)
          | exact h.elim
    · intro r hr
      exact hr.elim
    · exact List.Pairwise.nil
  · intro n b s hex
    apply allocate_overlap_error
    rcases hex with ⟨r, hr, hov⟩
    exact List.any_eq_true.mpr ⟨r, hr, hov⟩
  · apply allocate_overlap_error
    refine List.any_eq_true.mpr ⟨⟨"main_ram", 0x40000000, 0x400000⟩, ?_, by decide⟩
    simp [composedRegs]

/-- Witness for composed_map_disjoint at concrete mapped sizes (sram 0x1000,
spiflash 0x1000000, csr 0x10000), discharging both fit hypotheses. -/
theorem composed_map_disjoint_witness :
    composeRegions 0x1000 0x1000000 0x10000
      = .ok (composedRegs 0x1000 0x1000000 0x10000) ∧
    List.Pairwise (fun a b => overlaps a b = false)
      (composedRegs 0x1000 0x1000000 0x10000) ∧
    (∀ n b s,
      (∃ r ∈ composedRegs 0x1000 0x1000000 0x10000, overlaps r ⟨n, b, s⟩ = true) →
      allocate (composedRegs 0x1000 0x1000000 0x10000) n b s
        = .error .RegionOverlapError) ∧
    allocate (composedRegs 0x1000 0x1000000 0x10000) "extra" 0x40000000 0x100
      = .error .RegionOverlapError :=
  composed_map_disjoint 0x1000 0x1000000 0x10000 (by decide) (by decide)

/-- C4 counterexample: requesting a load without a build in the same run
(build flag false, load flag true) does not fail with any InvalidStateError:
main still invokes the device programmer from the Unbuilt state, on the
previously-built-on-disk artifact, and the run exits successfully. -/
theorem load_without_build_counterexample :
    (mainRun ⟨false, true, "dirtyJtag"⟩ ⟨true, "", 0⟩).buildState = .Unbuilt ∧
    (mainRun ⟨false, true, "dirtyJtag"⟩ ⟨true, "", 0⟩).loadInvoked = true ∧
    (mainRun ⟨false, true, "dirtyJtag"⟩ ⟨true, "", 0⟩).exitCode = 0 := by
  decide

/-- C4 amended: main attempts the device programming whenever the load flag
is set and the build step did not raise — that is, also from the Unbuilt
state when the build flag is absent, implicitly loading whatever bitstream
is on disk; no InvalidStateError guard exists. -/
theorem load_follows_flag (args : RunArgs) (ext : Collaborators) :
    (mainRun args ext).loadInvoked = (args.load && (!args.build || ext.synthOk)) ∧
    ((mainRun args ext).buildState = .Unbuilt → args.build = false →
      (mainRun args ext).loadInvoked = args.load) := by
  rcases args with ⟨b, l, c⟩
  rcases ext with ⟨so, sd, le⟩
  rcases b <;> rcases so <;> simp [mainRun]

/-- Witness for load_follows_flag at the concrete no-build load request. -/
theorem load_follows_flag_witness :
    (mainRun ⟨false, true, "dirtyJtag"⟩ ⟨true, "", 0⟩).loadInvoked
      = (true && (!false || true)) ∧
    ((mainRun ⟨false, true, "dirtyJtag"⟩ ⟨true, "", 0⟩).buildState = .Unbuilt →
      false = false →
      (mainRun ⟨false, true, "dirtyJtag"⟩ ⟨true, "", 0⟩).loadInvoked = true) :=
  load_follows_flag ⟨false, true, "dirtyJtag"⟩ ⟨true, "", 0⟩

/-- C5 counterexample: when the device-programming collaborator exits with
non-zero status (loader exit 1), main still terminates with final status 0,
and the orchestration state never becomes LoadFailed — the loader's error is
silently swallowed because the os.system return value is discarded. -/
theorem loader_failure_swallowed :
    (mainRun ⟨true, true, "dirtyJtag"⟩ ⟨true, "", 1⟩).loadInvoked = true ∧
    (mainRun ⟨true, true, "dirtyJtag"⟩ ⟨true, "", 1⟩).exitCode = 0 ∧
    (mainRun ⟨true, true, "dirtyJtag"⟩ ⟨true, "", 1⟩).buildState ≠ .LoadFailed := by
  decide

/-- C5 amended: the run's outcome is entirely independent of the device
programmer's exit status — os.system's return value is discarded, so the
final status is non-zero exactly when the synthesis step fails; a loader
failure is ignored and the pipeline still exits 0. -/
theorem loader_exit_ignored (args : RunArgs) (so : Bool) (sd : String) (n1 n2 : Nat) :
    mainRun args ⟨so, sd, n1⟩ = mainRun args ⟨so, sd, n2⟩ ∧
    (mainRun args ⟨so, sd, n1⟩).exitCode = (if args.build && !so then 1 else 0) := by
  rcases args with ⟨b, l, c⟩
  rcases b <;> rcases so <;> simp [mainRun]

/-- C6: a run with the build flag unset prepares inputs but never invokes
the synthesis collaborator and stays Unbuilt; a run with the build flag set
whose synthesis collaborator fails (reporting, per its interface contract,
non-empty diagnostic text) ends in BuildFailed with that non-empty
diagnostic captured verbatim. -/
theorem build_flag_behavior (args : RunArgs) (ext : Collaborators)
    (hdiag : ext.synthDiag ≠ "") :
    (args.build = false →
      (mainRun args ext).synthInvoked = false ∧
      (mainRun args ext).buildState = .Unbuilt) ∧
    (args.build = true → ext.synthOk = false →
      (mainRun args ext).buildState = .BuildFailed ∧
      (mainRun args ext).capturedDiag = ext.synthDiag ∧
      (mainRun args ext).capturedDiag ≠ "") := by
  rcases args with ⟨b, l, c⟩
  rcases ext with ⟨so, sd, le⟩
  rcases b <;> rcases so <;> simp_all [mainRun]

/-- Witness for build_flag_behavior at a failing build with diagnostic
output ERROR. -/
theorem build_flag_behavior_witness :
    (false = false →
      (mainRun ⟨false, false, "dirtyJtag"⟩ ⟨false, "ERROR", 0⟩).synthInvoked = false ∧
      (mainRun ⟨false, false, "dirtyJtag"⟩ ⟨false, "ERROR", 0⟩).buildState = .Unbuilt) ∧
    (false = true → false = false →
      (mainRun ⟨false, false, "dirtyJtag"⟩ ⟨false, "ERROR", 0⟩).buildState = .BuildFailed ∧
      (mainRun ⟨false, false, "dirtyJtag"⟩ ⟨false, "ERROR", 0⟩).capturedDiag = "ERROR" ∧
      (mainRun ⟨false, false, "dirtyJtag"⟩ ⟨false, "ERROR", 0⟩).capturedDiag ≠ "") :=
  build_flag_behavior ⟨false, false, "dirtyJtag"⟩ ⟨false, "ERROR", 0⟩ (by decide)

/-- C7 counterexample: composition writes process-wide mutable
configuration shared across compositions — BaseSoC.__init__ assigns the
SoCCore.mem_map class attribute (src/base.py line 56), so composing from a
process whose shared attribute held anything else (here: the empty map)
mutates that shared state. -/
theorem compose_writes_global_counterexample :
    (compose ⟨[]⟩ "7.0").1 ≠ ⟨[]⟩ ∧
    (compose ⟨[]⟩ "7.0").1 = ⟨base_mem_map⟩ := by
  constructor
  · intro h
    simp [compose, base_mem_map] at h
  · rfl

/-- C7 amended: compose is deterministic — two invocations with identical
inputs yield identical descriptors (region, clock-domain and peripheral
sets), and the descriptor does not even depend on the incoming shared state
because line 56 overwrites SoCCore.mem_map before it is read — but compose
does write that process-wide SoCCore.mem_map class attribute on every
invocation. -/
theorem compose_deterministic_but_writes_global
    (g1 g2 : SoCGlobals) (rev : String) :
    (compose g1 rev).2 = (compose g2 rev).2 ∧
    (compose g1 rev).2.regions = (compose g2 rev).2.regions ∧
    (compose g1 rev).2.clockDomains = (compose g2 rev).2.clockDomains ∧
    (compose g1 rev).2.peripherals = (compose g2 rev).2.peripherals ∧
    (compose g1 rev).1 = ⟨base_mem_map⟩ := by
  exact ⟨rfl, rfl, rfl, rfl, rfl⟩

/-- C8: the phase-shifted strobe domain is derived from the same PLL
reference as the system domain at the same frequency with phase 180
(src/base.py lines 47-48), and the clock manager stores a caller-supplied
phase verbatim: a successful derive appends exactly the requested domain
record, never substituting a computed ideal phase for the supplied one. -/
theorem phase_stored_verbatim (s : Nat) (m m2 : ClockManager)
    (n src : String) (f p : Nat)
    (h : derive m n src f p = .ok m2) :
    m2.domains = m.domains ++ [⟨n, src, f, p⟩] ∧
    (crg s).clkouts = [⟨"sys", s, 0⟩, ⟨"sys_ps", s, 180⟩] := by
  refine ⟨?_, rfl⟩
  unfold derive at h
  split at h
  · cases h
    rfl
  · cases h

/-- Witness for phase_stored_verbatim: deriving sys_ps from the registered
clk25 oscillator at 66 MHz phase 180. -/
theorem phase_stored_verbatim_witness :
    (ClockManager.mk [("clk25", 25000000)]
        [⟨"sys_ps", "clk25", 66000000, 180⟩] []).domains
      = (ClockManager.mk [("clk25", 25000000)] [] []).domains
          ++ [⟨"sys_ps", "clk25", 66000000, 180⟩] ∧
    (crg 66000000).clkouts = [⟨"sys", 66000000, 0⟩, ⟨"sys_ps", 66000000, 180⟩] :=
  phase_stored_verbatim 66000000 (ClockManager.mk [("clk25", 25000000)] [] [])
    (ClockManager.mk [("clk25", 25000000)] [⟨"sys_ps", "clk25", 66000000, 180⟩] [])
    "sys_ps" "clk25" 66000000 180 rfl

/-- C9: for any clock domain whose reset has not been synchronized,
bind_check fails with UnsynchronizedDomainError, so no peripheral can bind
to a domain whose reset policy is unestablished; after synchronize_reset on
that domain, bind_check succeeds. -/
theorem bind_check_requires_sync (m : ClockManager) (d guard : String)
    (h : m.synchronized.any (fun p => p.1 == d) = false) :
    bind_check m d = .error .UnsynchronizedDomainError ∧
    bind_check (synchronize_reset m d guard) d = .ok () := by
  constructor
  · simp [bind_check, h]
  · simp [bind_check, synchronize_reset, List.any_append, h]

/-- Witness for bind_check_requires_sync: the composed design's sys_ps
domain before and after synchronize_reset. -/
theorem bind_check_requires_sync_witness :
    bind_check cmgr_scenario "sys_ps" = .error .UnsynchronizedDomainError ∧
    bind_check (synchronize_reset cmgr_scenario "sys_ps"
        "pll.locked and external reset released") "sys_ps" = .ok () :=
  bind_check_requires_sync cmgr_scenario "sys_ps"
    "pll.locked and external reset released" (by decide)
